import Mathlib

/- Verification of the gesture-classification and frame-pipeline core of the
gesture-webcam-snakegame backend. The definitions below are a shallow
embedding of src/backend/hand_tracker.py (class HandTracker) and
src/backend/server.py (the socket event handlers), over exact rationals:
normalized landmark coordinates become ℚ, Python `int()` becomes truncation
on ℚ, and the square roots the source only ever compares or floors are
tracked through their squares. External collaborators (mediapipe detection,
base64 and image decoding, socket transport) are modelled by their observable
outcomes, as the repository treats them as opaque. -/

/-- A normalized 2D hand landmark: mediapipe `landmark.x`, `landmark.y`,
relative to the frame dimensions. -/
structure Pt where
  x : ℚ
  y : ℚ
deriving DecidableEq

/-- One hand landmark set as returned by the landmark provider. A well formed
set has exactly 21 points; the embedding keeps the length arbitrary so that
malformed sets can be reasoned about too. -/
abbrev LandmarkSet := List Pt

/-- The four directional commands of `HandTracker.detect_gesture`. -/
inductive Direction where
  | up
  | down
  | left
  | right
deriving DecidableEq

/-- Tags of the ten joints listed in the `hand_data` payload (the `type`
strings of hand_tracker.py lines 196-205). -/
inductive JointType where
  | wrist
  | thumb_tip
  | index_tip
  | middle_tip
  | ring_tip
  | pinky_tip
  | mcp
deriving DecidableEq

/-- One entry of the `joints` list: integer pixel coordinates plus a tag. -/
structure Joint where
  x : ℤ
  y : ℤ
  type : JointType
deriving DecidableEq

/-- Python `int()` applied to a rational: truncation toward zero. The source
uses `int(...)` for every normalized-to-pixel conversion. -/
def pyInt (q : ℚ) : ℤ := q.num.tdiv q.den

/-- Squared euclidean distance between two normalized points. The source
computes `((ax-bx)**2 + (ay-by)**2)**0.5` and only ever compares the result
against a nonnegative threshold or floors a scaled copy of it, so the
embedding tracks the exact square. -/
def sqDist (p q : Pt) : ℚ := (p.x - q.x) ^ 2 + (p.y - q.y) ^ 2

/-- Floor of `sqrt s * m` for `0 ≤ s`, computed exactly on rationals: for
`s = n/d` the value `sqrt(s)*m` equals `sqrt(n*m^2*d)/d`, so its floor is
`Nat.sqrt (n*m^2*d) / d`. This embeds `int(hand_scale * max(w, h))` of
hand_tracker.py line 83; `isqrtQ_bounds` below proves the characterizing
inequalities. -/
def isqrtQ (s : ℚ) (m : ℕ) : ℕ := Nat.sqrt (s.num.toNat * m ^ 2 * s.den) / s.den

/-- `self.direction_threshold = 0.15` (hand_tracker.py line 31). -/
def direction_threshold : ℚ := 15 / 100

/-- The index-extension threshold `0.08` of hand_tracker.py line 213. -/
def extension_threshold : ℚ := 8 / 100

/-- Square of the extension threshold: the source compares
`index_length > 0.08` where `index_length` is a square root of a sum of
squares; for nonnegative quantities that comparison is equivalent to the
comparison of squares used here. -/
def extension_threshold_sq : ℚ := extension_threshold ^ 2

/-- Per-frame derived geometry (hand_tracker.py lines 76-91): wrist pixel
position, pointing vector `(dx, dy)` from wrist to index tip, squared
index-extension length, squared hand scale and its pixel conversion, and the
frame dimensions. -/
structure GeometrySnapshot where
  wristPixelX : ℤ
  wristPixelY : ℤ
  dx : ℚ
  dy : ℚ
  indexExtensionSq : ℚ
  handScaleSq : ℚ
  handScalePixels : ℕ
  frameWidth : ℕ
  frameHeight : ℕ
deriving DecidableEq

/-- Geometry extraction from the four landmarks the classifier path reads
(wrist = index 0, index MCP = 5, index tip = 8, middle MCP = 9). -/
def mkGeometry (wrist index_mcp index_tip middle_mcp : Pt) (w h : ℕ) :
    GeometrySnapshot :=
  { wristPixelX := pyInt (wrist.x * w)
    wristPixelY := pyInt (wrist.y * h)
    dx := index_tip.x - wrist.x
    dy := index_tip.y - wrist.y
    indexExtensionSq := sqDist index_tip index_mcp
    handScaleSq := sqDist wrist middle_mcp
    handScalePixels := isqrtQ (sqDist wrist middle_mcp) (max w h)
    frameWidth := w
    frameHeight := h }

/-- The direction classifier (hand_tracker.py lines 212-229): classify only
when the index finger is extended (`index_length > 0.08`, compared here in
squared form), pick the dominant axis (`abs_dy > abs_dx` means vertical),
then test the dominant component against the ±0.15 dead zone. -/
def classify (g : GeometrySnapshot) : Option Direction :=
  if extension_threshold_sq < g.indexExtensionSq then
    if |g.dx| < |g.dy| then
      if g.dy < -direction_threshold then some .up
      else if direction_threshold < g.dy then some .down
      else none
    else
      if g.dx < -direction_threshold then some .left
      else if direction_threshold < g.dx then some .right
      else none
  else none

/-- TrackerState: `self.previous_wrist_pos`, a normalized wrist position or
`none` (hand_tracker.py line 36). -/
abbrev WristPos := ℚ × ℚ

/-- Movement delta against the previous wrist position (hand_tracker.py
lines 93-99): `(0, 0)` when no previous position exists. -/
def movementOf (prev : Option WristPos) (wrist : Pt) : ℚ × ℚ :=
  match prev with
  | none => (0, 0)
  | some p => (wrist.x - p.1, wrist.y - p.2)

/-- One joint entry of the overlay payload: normalized coordinates converted
to integer pixels with `int()` (hand_tracker.py lines 196-205). -/
def mkJoint (p : Pt) (w h : ℕ) (t : JointType) : Joint :=
  { x := pyInt (p.x * w), y := pyInt (p.y * h), type := t }

/-- The `hand_data` overlay payload (hand_tracker.py lines 186-207). -/
structure HandData where
  wrist_x : ℤ
  wrist_y : ℤ
  movement_dx : ℚ
  movement_dy : ℚ
  hand_scale_pixels : ℕ
  has_previous_pos : Bool
  frame_width : ℕ
  frame_height : ℕ
  joints : List Joint
deriving DecidableEq

/-- Assembly of the `hand_data` dictionary for one hand. Landmark arguments
are in index order (0, 4, 5, 8, 9, 12, 13, 16, 17, 20); the `joints` list
keeps the source's own order: wrist, the five fingertips, then the four MCP
joints. -/
def mkHandData (prev : Option WristPos)
    (wrist thumb_tip index_mcp index_tip middle_mcp middle_tip
      ring_mcp ring_tip pinky_mcp pinky_tip : Pt) (w h : ℕ) : HandData :=
  { wrist_x := pyInt (wrist.x * w)
    wrist_y := pyInt (wrist.y * h)
    movement_dx := (movementOf prev wrist).1
    movement_dy := (movementOf prev wrist).2
    hand_scale_pixels := isqrtQ (sqDist wrist middle_mcp) (max w h)
    has_previous_pos := prev.isSome
    frame_width := w
    frame_height := h
    joints :=
      [ mkJoint wrist w h .wrist
      , mkJoint thumb_tip w h .thumb_tip
      , mkJoint index_tip w h .index_tip
      , mkJoint middle_tip w h .middle_tip
      , mkJoint ring_tip w h .ring_tip
      , mkJoint pinky_tip w h .pinky_tip
      , mkJoint index_mcp w h .mcp
      , mkJoint middle_mcp w h .mcp
      , mkJoint ring_mcp w h .mcp
      , mkJoint pinky_mcp w h .mcp ] }

/-- Exceptions that can escape per-frame processing; the server handler turns
any of them into one `error` event, so only their identity matters. -/
inductive PyErr where
  | indexError
  | badBase64
deriving DecidableEq

/-- One iteration of the per-hand loop of `detect_gesture` (hand_tracker.py
lines 58-229) on the entering tracker state. Every landmark access the source
performs (indices 0, 4, 5, 8, 9, 12, 13, 16, 17, 20) happens before the state
update at line 210, so a set missing any of them raises without touching
state; otherwise the iteration yields the new state `(wrist.x, wrist.y)`,
this hand's classification, and its overlay payload. -/
def processHand (prev : Option WristPos) (lm : LandmarkSet) (w h : ℕ) :
    Except PyErr (WristPos × Option Direction × HandData) :=
  match lm[20]?, lm[0]?, lm[4]?, lm[5]?, lm[8]?,
      lm[9]?, lm[12]?, lm[13]?, lm[16]?, lm[17]? with
  | some pinky_tip, some wrist, some thumb_tip, some index_mcp, some index_tip,
    some middle_mcp, some middle_tip, some ring_mcp, some ring_tip, some pinky_mcp =>
      .ok ((wrist.x, wrist.y),
        classify (mkGeometry wrist index_mcp index_tip middle_mcp w h),
        mkHandData prev wrist thumb_tip index_mcp index_tip middle_mcp middle_tip
          ring_mcp ring_tip pinky_mcp pinky_tip w h)
  | _, _, _, _, _, _, _, _, _, _ => .error .indexError

/-- Python assignment semantics of the loop variable `direction`: a later
hand overwrites the accumulated value only when its own classification fires,
because hand_tracker.py lines 218-229 assign `direction` only inside the four
branch arms. -/
def overwriteDir (fresh old : Option Direction) : Option Direction :=
  match fresh with
  | some d => some d
  | none => old

/-- The `for hand_landmarks in results.multi_hand_landmarks` loop. The first
component of the result is the tracker state when the loop ends or when an
exception escapes (partial mutations survive, as in Python). -/
def detectLoop (w h : ℕ) (prev : Option WristPos) (dir : Option Direction)
    (hd : Option HandData) :
    List LandmarkSet → Option WristPos × Except PyErr (Option Direction × Option HandData)
  | [] => (prev, .ok (dir, hd))
  | lm :: rest =>
    match processHand prev lm w h with
    | .error e => (prev, .error e)
    | .ok (p, d, data) => detectLoop w h (some p) (overwriteDir d dir) (some data) rest

/-- One decoded frame: pixel dimensions plus the landmark sets the provider
returned (`results.multi_hand_landmarks`; the empty list is the falsy
"no hand" case of hand_tracker.py line 57). -/
structure Frame where
  width : ℕ
  height : ℕ
  hands : List LandmarkSet

/-- `HandTracker.detect_gesture` (hand_tracker.py lines 38-246) restricted to
its observable data: the tracker state after the call, and either the raised
exception or the returned pair (direction, hand_data). The annotated frame is
presentation only and is not modelled. -/
def detect_gesture (prev : Option WristPos) (f : Frame) :
    Option WristPos × Except PyErr (Option Direction × Option HandData) :=
  if f.hands.isEmpty then (none, .ok (none, none))
  else detectLoop f.width f.height prev none none f.hands

/-- Acknowledgement messages of the `response` events of server.py. -/
inductive RespMsg where
  | handTrackingStarted
  | handTrackingStopped
deriving DecidableEq

/-- Outbound socket events of server.py. The `gesture_command` timestamp is
wall-clock time and is not modelled. -/
inductive Event where
  | response (msg : RespMsg)
  | gesture_command (dir : Direction)
  | hand_data (d : HandData)
  | error (e : PyErr)
deriving DecidableEq

/-- The observable outcome of the external decode steps of `handle_frame`
(server.py lines 46-60): the `image` field absent or empty, a base64 payload
whose decode raises, decoded bytes that `cv2.imdecode` rejects (returns
`None`), or a successfully decoded frame. Decoding itself is an external
collaborator and is modelled by its outcome. -/
inductive FramePayload where
  | missing
  | malformed (e : PyErr)
  | undecodable
  | image (f : Frame)

/-- `handle_frame` (server.py lines 37-80): silent early returns for a
missing image and for undecodable bytes, the `except` branch turning any
raise into exactly one `error` event, and otherwise a `gesture_command` event
when a direction was classified followed by a `hand_data` event when a hand
was seen. Returns the tracker state after the call together with the emitted
events in order. -/
def handle_frame (prev : Option WristPos) (p : FramePayload) :
    Option WristPos × List Event :=
  match p with
  | .missing => (prev, [])
  | .malformed e => (prev, [Event.error e])
  | .undecodable => (prev, [])
  | .image f =>
    match detect_gesture prev f with
    | (prev2, .error e) => (prev2, [Event.error e])
    | (prev2, .ok (dir, hd)) =>
      (prev2,
        (match dir with
         | some d => [Event.gesture_command d]
         | none => []) ++
        (match hd with
         | some data => [Event.hand_data data]
         | none => []))

/-- `handle_start_tracking` (server.py lines 82-86): prints, emits one
`response` acknowledgement, and touches no tracker state. -/
def handle_start_tracking (prev : Option WristPos) : Option WristPos × List Event :=
  (prev, [Event.response .handTrackingStarted])

/-- `handle_stop_tracking` (server.py lines 88-92): same shape as start. -/
def handle_stop_tracking (prev : Option WristPos) : Option WristPos × List Event :=
  (prev, [Event.response .handTrackingStopped])

/-- A landmark set whose index tip (index 8) points up from the wrist at
(1/2, 1/2); all other landmarks sit on the wrist. -/
def handUp : LandmarkSet := (List.replicate 21 (⟨1/2, 1/2⟩ : Pt)).set 8 ⟨1/2, 0⟩

/-- A closed-fist landmark set: all 21 landmarks at (4/5, 4/5), so the index
finger has zero extension and no direction is classified. -/
def handFist : LandmarkSet := List.replicate 21 (⟨4/5, 4/5⟩ : Pt)

/-- A landmark set with wrist at (1/2, 1/2) and the index tip (index 8) at
(1/2, 1/4); used to exercise the overlay payload. -/
def exLm : LandmarkSet := (List.replicate 21 (⟨1/2, 1/2⟩ : Pt)).set 8 ⟨1/2, 1/4⟩

/-- For nonnegative arguments, Python truncation agrees with the floor. -/
theorem pyInt_eq_floor (q : ℚ) (h : 0 ≤ q) : pyInt q = ⌊q⌋ := by
  unfold pyInt
  rw [Rat.floor_def, Int.tdiv_eq_ediv (Rat.num_nonneg.mpr h) (by positivity)]

/-- `isqrtQ s m` is the floor of `sqrt s * m`, characterized without square
roots: it is the unique natural `r` with `r^2 ≤ s*m^2 < (r+1)^2`. -/
theorem isqrtQ_bounds (s : ℚ) (m : ℕ) (hs : 0 ≤ s) :
    ((isqrtQ s m : ℚ)) ^ 2 ≤ s * (m : ℚ) ^ 2 ∧
      s * (m : ℚ) ^ 2 < ((isqrtQ s m : ℚ) + 1) ^ 2 := by
  have hd0 : 0 < s.den := s.pos
  have hnum0 : 0 ≤ s.num := Rat.num_nonneg.mpr hs
  have hN : ((s.num.toNat * m ^ 2 * s.den : ℕ) : ℚ) = s * (m : ℚ) ^ 2 * (s.den : ℚ) ^ 2 := by
    have hcast : ((s.num.toNat : ℕ) : ℚ) = (s.num : ℚ) := by
      exact_mod_cast Int.toNat_of_nonneg hnum0
    have hq : s * (s.den : ℚ) = (s.num : ℚ) := by
      nth_rewrite 1 [← Rat.num_div_den s]
      rw [div_mul_cancel₀]
      exact_mod_cast hd0.ne'
    push_cast
    rw [hcast, ← hq]; ring
  have hr1 : isqrtQ s m * s.den ≤ Nat.sqrt (s.num.toNat * m ^ 2 * s.den) := by
    unfold isqrtQ
    exact Nat.div_mul_le_self _ _
  have hr2 : Nat.sqrt (s.num.toNat * m ^ 2 * s.den) < (isqrtQ s m + 1) * s.den := by
    unfold isqrtQ
    exact (Nat.div_lt_iff_lt_mul hd0).mp (Nat.lt_succ_self _)
  have hnat1 : (isqrtQ s m * s.den) ^ 2 ≤ s.num.toNat * m ^ 2 * s.den := by
    calc (isqrtQ s m * s.den) ^ 2
        ≤ (Nat.sqrt (s.num.toNat * m ^ 2 * s.den)) ^ 2 := Nat.pow_le_pow_left hr1 2
      _ ≤ s.num.toNat * m ^ 2 * s.den := Nat.sqrt_le' _
  have hnat2 : s.num.toNat * m ^ 2 * s.den < ((isqrtQ s m + 1) * s.den) ^ 2 := by
    calc s.num.toNat * m ^ 2 * s.den
        < (Nat.sqrt (s.num.toNat * m ^ 2 * s.den) + 1) ^ 2 := Nat.lt_succ_sqrt' _
      _ ≤ ((isqrtQ s m + 1) * s.den) ^ 2 := Nat.pow_le_pow_left hr2 2
  have hdQ : (0 : ℚ) < ((s.den : ℚ)) ^ 2 := by positivity
  constructor
  · have h1 : ((isqrtQ s m : ℚ) * (s.den : ℚ)) ^ 2 ≤ s * (m : ℚ) ^ 2 * (s.den : ℚ) ^ 2 := by
      rw [← hN]; exact_mod_cast hnat1
    rw [mul_pow] at h1
    exact le_of_mul_le_mul_right h1 hdQ
  · have h2 : s * (m : ℚ) ^ 2 * (s.den : ℚ) ^ 2 < (((isqrtQ s m : ℚ) + 1) * (s.den : ℚ)) ^ 2 := by
      rw [← hN]; exact_mod_cast hnat2
    rw [mul_pow] at h2
    exact lt_of_mul_lt_mul_right h2 (le_of_lt hdQ)

/-- Evaluation of `processHand` when the ten accessed landmarks exist. -/
theorem processHand_eq (prev : Option WristPos) (lm : LandmarkSet) (w h : ℕ)
    (wrist thumb_tip index_mcp index_tip middle_mcp middle_tip
      ring_mcp ring_tip pinky_mcp pinky_tip : Pt)
    (h0 : lm[0]? = some wrist) (h4 : lm[4]? = some thumb_tip)
    (h5 : lm[5]? = some index_mcp) (h8 : lm[8]? = some index_tip)
    (h9 : lm[9]? = some middle_mcp) (h12 : lm[12]? = some middle_tip)
    (h13 : lm[13]? = some ring_mcp) (h16 : lm[16]? = some ring_tip)
    (h17 : lm[17]? = some pinky_mcp) (h20 : lm[20]? = some pinky_tip) :
    processHand prev lm w h = .ok ((wrist.x, wrist.y),
      classify (mkGeometry wrist index_mcp index_tip middle_mcp w h),
      mkHandData prev wrist thumb_tip index_mcp index_tip middle_mcp middle_tip
        ring_mcp ring_tip pinky_mcp pinky_tip w h) := by
  simp only [processHand, h0, h4, h5, h8, h9, h12, h13, h16, h17, h20]

/-- A landmark set with fewer than 21 points misses index 20 and raises. -/
theorem processHand_short (prev : Option WristPos) (lm : LandmarkSet) (w h : ℕ)
    (hlen : lm.length < 21) : processHand prev lm w h = .error .indexError := by
  have h20 : lm[20]? = none := List.getElem?_eq_none (by omega)
  simp only [processHand, h20]

/-- A fresh classification of `none` keeps the previously assigned value. -/
theorem overwriteDir_none (d : Option Direction) : overwriteDir d none = d := by
  cases d <;> rfl

/-- The hand loop splits over list append: the hands after a prefix continue
from the state, direction and payload the prefix produced, and an exception
in the prefix short-circuits. -/
theorem detectLoop_append (w h : ℕ) (hs ks : List LandmarkSet) :
    ∀ (prev : Option WristPos) (dir : Option Direction) (hd : Option HandData),
      detectLoop w h prev dir hd (hs ++ ks) =
        match detectLoop w h prev dir hd hs with
        | (p, .error e) => (p, .error e)
        | (p, .ok (d, hdata)) => detectLoop w h p d hdata ks := by
  induction hs with
  | nil => intro prev dir hd; rfl
  | cons a t ih =>
    intro prev dir hd
    show detectLoop w h prev dir hd (a :: (t ++ ks)) = _
    simp only [detectLoop]
    rcases hE : processHand prev a w h with e | ⟨p, d, data⟩
    · rfl
    · exact ih (some p) (overwriteDir d dir) (some data)

/-- On a nonempty hand list, `detect_gesture` is the loop from the initial
accumulators. -/
theorem detect_gesture_cons (prev : Option WristPos) (w h : ℕ)
    (lm : LandmarkSet) (rest : List LandmarkSet) :
    detect_gesture prev ⟨w, h, lm :: rest⟩ = detectLoop w h prev none none (lm :: rest) := rfl

/-- Characterization of an `up` classification. -/
theorem classify_eq_up_iff (g : GeometrySnapshot) :
    classify g = some Direction.up ↔
      extension_threshold_sq < g.indexExtensionSq ∧ |g.dx| < |g.dy| ∧
        g.dy < -direction_threshold := by
  constructor
  · intro hcl
    unfold classify at hcl
    split_ifs at hcl with hext hax h1 h2 h3 h4
    · exact ⟨hext, hax, h1⟩
    all_goals simp_all
  · rintro ⟨hext, hax, h1⟩
    unfold classify
    rw [if_pos hext, if_pos hax, if_pos h1]

/-- Characterization of a `down` classification. -/
theorem classify_eq_down_iff (g : GeometrySnapshot) :
    classify g = some Direction.down ↔
      extension_threshold_sq < g.indexExtensionSq ∧ |g.dx| < |g.dy| ∧
        direction_threshold < g.dy := by
  have hdt : (0 : ℚ) < direction_threshold := by norm_num [direction_threshold]
  constructor
  · intro hcl
    unfold classify at hcl
    split_ifs at hcl with hext hax h1 h2 h3 h4
    · simp_all
    · exact ⟨hext, hax, h2⟩
    all_goals simp_all
  · rintro ⟨hext, hax, h2⟩
    unfold classify
    rw [if_pos hext, if_pos hax, if_neg (not_lt.mpr (by linarith)), if_pos h2]

/-- Characterization of a `left` classification. -/
theorem classify_eq_left_iff (g : GeometrySnapshot) :
    classify g = some Direction.left ↔
      extension_threshold_sq < g.indexExtensionSq ∧ |g.dy| ≤ |g.dx| ∧
        g.dx < -direction_threshold := by
  constructor
  · intro hcl
    unfold classify at hcl
    split_ifs at hcl with hext hax h1 h2 h3 h4 <;> simp_all
  · rintro ⟨hext, hax, h3⟩
    unfold classify
    rw [if_pos hext, if_neg (not_lt.mpr hax), if_pos h3]

/-- Characterization of a `right` classification. -/
theorem classify_eq_right_iff (g : GeometrySnapshot) :
    classify g = some Direction.right ↔
      extension_threshold_sq < g.indexExtensionSq ∧ |g.dy| ≤ |g.dx| ∧
        direction_threshold < g.dx := by
  have hdt : (0 : ℚ) < direction_threshold := by norm_num [direction_threshold]
  constructor
  · intro hcl
    unfold classify at hcl
    split_ifs at hcl with hext hax h1 h2 h3 h4 <;> simp_all
  · rintro ⟨hext, hax, h4⟩
    unfold classify
    rw [if_pos hext, if_neg (not_lt.mpr hax), if_neg (not_lt.mpr (by linarith)), if_pos h4]

/-- A fist or curled finger (small extension) is never classified. -/
theorem classify_eq_none_of_low_extension (g : GeometrySnapshot)
    (hle : g.indexExtensionSq ≤ extension_threshold_sq) : classify g = none := by
  unfold classify
  rw [if_neg (not_lt.mpr hle)]

/-- With a dominant vertical axis, a dy inside the dead zone yields no
direction. -/
theorem classify_eq_none_vertical (g : GeometrySnapshot) (hax : |g.dx| < |g.dy|)
    (h1 : -direction_threshold ≤ g.dy) (h2 : g.dy ≤ direction_threshold) :
    classify g = none := by
  unfold classify
  by_cases hext : extension_threshold_sq < g.indexExtensionSq
  · rw [if_pos hext, if_pos hax, if_neg (not_lt.mpr h1), if_neg (not_lt.mpr h2)]
  · rw [if_neg hext]

/-- With a dominant horizontal axis, a dx inside the dead zone yields no
direction. -/
theorem classify_eq_none_horizontal (g : GeometrySnapshot) (hax : |g.dy| ≤ |g.dx|)
    (h1 : -direction_threshold ≤ g.dx) (h2 : g.dx ≤ direction_threshold) :
    classify g = none := by
  unfold classify
  by_cases hext : extension_threshold_sq < g.indexExtensionSq
  · rw [if_pos hext, if_neg (not_lt.mpr hax), if_neg (not_lt.mpr h1), if_neg (not_lt.mpr h2)]
  · rw [if_neg hext]

/-- The hand of `handUp` classifies as `up`. -/
theorem classify_handUp :
    classify (mkGeometry ⟨1/2, 1/2⟩ ⟨1/2, 1/2⟩ ⟨1/2, 0⟩ ⟨1/2, 1/2⟩ 10 10) = some Direction.up := by
  rw [classify_eq_up_iff]
  refine ⟨?_, ?_, ?_⟩
  · show extension_threshold_sq < sqDist ⟨1/2, 0⟩ ⟨1/2, 1/2⟩
    norm_num [extension_threshold_sq, extension_threshold, sqDist]
  · show |(1:ℚ)/2 - 1/2| < |(0:ℚ) - 1/2|
    rw [show (1:ℚ)/2 - 1/2 = 0 by norm_num, show (0:ℚ) - 1/2 = -(1/2) by norm_num,
      abs_zero, abs_neg, abs_of_nonneg (by norm_num : (0:ℚ) ≤ 1/2)]
    norm_num
  · show (0:ℚ) - 1/2 < -direction_threshold
    norm_num [direction_threshold]

/-- The hand of `handFist` has zero extension and classifies as `none`. -/
theorem classify_handFist :
    classify (mkGeometry ⟨4/5, 4/5⟩ ⟨4/5, 4/5⟩ ⟨4/5, 4/5⟩ ⟨4/5, 4/5⟩ 10 10) = none := by
  apply classify_eq_none_of_low_extension
  show sqDist ⟨4/5, 4/5⟩ ⟨4/5, 4/5⟩ ≤ extension_threshold_sq
  norm_num [sqDist, extension_threshold_sq, extension_threshold]

/-- Evaluation of the hand loop on the single hand `handUp`. -/
theorem detectLoop_handUp :
    detectLoop 10 10 none none none [handUp] =
      (some ((1:ℚ)/2, (1:ℚ)/2),
        .ok (some Direction.up,
          some (mkHandData none ⟨1/2, 1/2⟩ ⟨1/2, 1/2⟩ ⟨1/2, 1/2⟩ ⟨1/2, 0⟩ ⟨1/2, 1/2⟩
            ⟨1/2, 1/2⟩ ⟨1/2, 1/2⟩ ⟨1/2, 1/2⟩ ⟨1/2, 1/2⟩ ⟨1/2, 1/2⟩ 10 10))) := by
  simp only [detectLoop,
    processHand_eq none handUp 10 10 ⟨1/2, 1/2⟩ ⟨1/2, 1/2⟩ ⟨1/2, 1/2⟩ ⟨1/2, 0⟩ ⟨1/2, 1/2⟩
      ⟨1/2, 1/2⟩ ⟨1/2, 1/2⟩ ⟨1/2, 1/2⟩ ⟨1/2, 1/2⟩ ⟨1/2, 1/2⟩ rfl rfl rfl rfl rfl rfl rfl rfl rfl rfl,
    classify_handUp, overwriteDir]

/-- Evaluation of one loop iteration on the fist hand with a previous wrist
position from the first hand of the same frame. -/
theorem processHand_handFist :
    processHand (some ((1:ℚ)/2, (1:ℚ)/2)) handFist 10 10 =
      .ok (((4:ℚ)/5, (4:ℚ)/5), none,
        mkHandData (some ((1:ℚ)/2, (1:ℚ)/2)) ⟨4/5, 4/5⟩ ⟨4/5, 4/5⟩ ⟨4/5, 4/5⟩ ⟨4/5, 4/5⟩
          ⟨4/5, 4/5⟩ ⟨4/5, 4/5⟩ ⟨4/5, 4/5⟩ ⟨4/5, 4/5⟩ ⟨4/5, 4/5⟩ ⟨4/5, 4/5⟩ 10 10) := by
  rw [processHand_eq (some ((1:ℚ)/2, (1:ℚ)/2)) handFist 10 10 ⟨4/5, 4/5⟩ ⟨4/5, 4/5⟩
    ⟨4/5, 4/5⟩ ⟨4/5, 4/5⟩ ⟨4/5, 4/5⟩ ⟨4/5, 4/5⟩ ⟨4/5, 4/5⟩ ⟨4/5, 4/5⟩ ⟨4/5, 4/5⟩ ⟨4/5, 4/5⟩
    rfl rfl rfl rfl rfl rfl rfl rfl rfl rfl, classify_handFist]

/-- C1: for every GeometrySnapshot the classifier returns `none` when the
index extension is at most 0.08 (compared in squared form, which for these
nonnegative lengths is equivalent); when the extension exceeds 0.08 it picks
the dominant axis (vertical exactly when `|dy| > |dx|`, stated here as
`|dx| < |dy|`) and returns `up` iff `dy < -0.15`, `down` iff `dy > 0.15` on
the vertical axis, `left` iff `dx < -0.15`, `right` iff `dx > 0.15` on the
horizontal axis, and `none` whenever the dominant component lies inside the
[-0.15, 0.15] dead zone. -/
theorem c1_direction_classifier (g : GeometrySnapshot) :
    (g.indexExtensionSq ≤ extension_threshold_sq → classify g = none) ∧
    (classify g = some Direction.up ↔
      extension_threshold_sq < g.indexExtensionSq ∧ |g.dx| < |g.dy| ∧
        g.dy < -direction_threshold) ∧
    (classify g = some Direction.down ↔
      extension_threshold_sq < g.indexExtensionSq ∧ |g.dx| < |g.dy| ∧
        direction_threshold < g.dy) ∧
    (classify g = some Direction.left ↔
      extension_threshold_sq < g.indexExtensionSq ∧ |g.dy| ≤ |g.dx| ∧
        g.dx < -direction_threshold) ∧
    (classify g = some Direction.right ↔
      extension_threshold_sq < g.indexExtensionSq ∧ |g.dy| ≤ |g.dx| ∧
        direction_threshold < g.dx) ∧
    (|g.dx| < |g.dy| → -direction_threshold ≤ g.dy → g.dy ≤ direction_threshold →
      classify g = none) ∧
    (|g.dy| ≤ |g.dx| → -direction_threshold ≤ g.dx → g.dx ≤ direction_threshold →
      classify g = none) :=
  ⟨classify_eq_none_of_low_extension g, classify_eq_up_iff g, classify_eq_down_iff g,
    classify_eq_left_iff g, classify_eq_right_iff g,
    fun hax h1 h2 => classify_eq_none_vertical g hax h1 h2,
    fun hax h1 h2 => classify_eq_none_horizontal g hax h1 h2⟩

/-- Witness for C1: a concrete snapshot with an extended index finger
pointing straight up is classified as `up` through the characterization. -/
theorem c1_direction_classifier_witness :
    classify (mkGeometry ⟨1/2, 1/2⟩ ⟨1/2, 1/2⟩ ⟨1/2, 0⟩ ⟨1/2, 1/2⟩ 10 10) =
      some Direction.up := by
  refine ((c1_direction_classifier _).2.1).mpr ⟨?_, ?_, ?_⟩
  · show extension_threshold_sq < sqDist ⟨1/2, 0⟩ ⟨1/2, 1/2⟩
    norm_num [extension_threshold_sq, extension_threshold, sqDist]
  · show |(1:ℚ)/2 - 1/2| < |(0:ℚ) - 1/2|
    rw [show (1:ℚ)/2 - 1/2 = 0 by norm_num, show (0:ℚ) - 1/2 = -(1/2) by norm_num,
      abs_zero, abs_neg, abs_of_nonneg (by norm_num : (0:ℚ) ≤ 1/2)]
    norm_num
  · show (0:ℚ) - 1/2 < -direction_threshold
    norm_num [direction_threshold]

/-- C2: for every frame with a detected hand the motion output is `(0, 0)`
with `has_previous_pos = false` when the tracker state is `none`, and the
difference of the current and previous normalized wrist positions with
`has_previous_pos = true` otherwise; the state returned by the call is the
current wrist position while the deltas are computed against the entering
state, so the delta always refers to the prior frame's value. -/
theorem c2_motion_tracker (prev : Option WristPos) (lm : LandmarkSet) (w h : ℕ)
    (wrist thumb_tip index_mcp index_tip middle_mcp middle_tip
      ring_mcp ring_tip pinky_mcp pinky_tip : Pt)
    (h0 : lm[0]? = some wrist) (h4 : lm[4]? = some thumb_tip)
    (h5 : lm[5]? = some index_mcp) (h8 : lm[8]? = some index_tip)
    (h9 : lm[9]? = some middle_mcp) (h12 : lm[12]? = some middle_tip)
    (h13 : lm[13]? = some ring_mcp) (h16 : lm[16]? = some ring_tip)
    (h17 : lm[17]? = some pinky_mcp) (h20 : lm[20]? = some pinky_tip) :
    ∃ d hd, processHand prev lm w h = .ok ((wrist.x, wrist.y), d, hd) ∧
      detect_gesture prev ⟨w, h, [lm]⟩ = (some (wrist.x, wrist.y), .ok (d, some hd)) ∧
      hd.has_previous_pos = prev.isSome ∧
      (prev = none → hd.movement_dx = 0 ∧ hd.movement_dy = 0) ∧
      ∀ q, prev = some q →
        hd.movement_dx = wrist.x - q.1 ∧ hd.movement_dy = wrist.y - q.2 := by
  have hph := processHand_eq prev lm w h wrist thumb_tip index_mcp index_tip middle_mcp
    middle_tip ring_mcp ring_tip pinky_mcp pinky_tip h0 h4 h5 h8 h9 h12 h13 h16 h17 h20
  refine ⟨_, _, hph, ?_, rfl, ?_, ?_⟩
  · rw [detect_gesture_cons]
    simp only [detectLoop, hph, overwriteDir_none]
  · intro hp; subst hp; exact ⟨rfl, rfl⟩
  · intro q hq; subst hq; exact ⟨rfl, rfl⟩

/-- Witness for C2 at a concrete landmark set and an empty tracker state. -/
theorem c2_motion_tracker_witness :
    ∃ d hd, processHand none exLm 10 10 = .ok (((1:ℚ)/2, (1:ℚ)/2), d, hd) ∧
      detect_gesture none ⟨10, 10, [exLm]⟩ = (some ((1:ℚ)/2, (1:ℚ)/2), .ok (d, some hd)) ∧
      hd.has_previous_pos = (none : Option WristPos).isSome ∧
      ((none : Option WristPos) = none → hd.movement_dx = 0 ∧ hd.movement_dy = 0) ∧
      ∀ q, (none : Option WristPos) = some q →
        hd.movement_dx = (1:ℚ)/2 - q.1 ∧ hd.movement_dy = (1:ℚ)/2 - q.2 :=
  c2_motion_tracker none exLm 10 10 ⟨1/2, 1/2⟩ ⟨1/2, 1/2⟩ ⟨1/2, 1/2⟩ ⟨1/2, 1/4⟩
    ⟨1/2, 1/2⟩ ⟨1/2, 1/2⟩ ⟨1/2, 1/2⟩ ⟨1/2, 1/2⟩ ⟨1/2, 1/2⟩ ⟨1/2, 1/2⟩
    rfl rfl rfl rfl rfl rfl rfl rfl rfl rfl

/-- C3: a frame with no detected hand resets the tracker state to `none` and
emits nothing, and a second consecutive no-hand frame does the same starting
from the `none` state. -/
theorem c3_no_hand_reset (prev : Option WristPos) (w h : ℕ) :
    detect_gesture prev ⟨w, h, []⟩ = (none, .ok (none, none)) ∧
    handle_frame prev (.image ⟨w, h, []⟩) = (none, []) ∧
    detect_gesture none ⟨w, h, []⟩ = (none, .ok (none, none)) ∧
    handle_frame none (.image ⟨w, h, []⟩) = (none, []) :=
  ⟨rfl, rfl, rfl, rfl⟩

/-- C4 (amended): a frame whose landmark set has fewer than 21 points makes
the per-hand processing raise an index error before any state mutation, so
the server emits exactly one `error` event and leaves the tracker state
unchanged (it is not reset to `none` and the frame is not treated as
"no hand"); landmark sets with more than 21 points are not rejected either:
only the fixed indices up to 20 are read, so processing them is the same as
processing their first 21 points. -/
theorem c4_invalid_landmark_set (prev : Option WristPos) (lm : LandmarkSet) (w h : ℕ) :
    (lm.length < 21 →
      handle_frame prev (.image ⟨w, h, [lm]⟩) = (prev, [Event.error PyErr.indexError])) ∧
    processHand prev lm w h = processHand prev (lm.take 21) w h := by
  constructor
  · intro hlen
    have hshort := processHand_short prev lm w h hlen
    simp only [handle_frame, detect_gesture_cons, detectLoop, hshort]
  · have ht : ∀ i, i < 21 → (lm.take 21)[i]? = lm[i]? :=
      fun i hi => List.getElem?_take_of_lt hi
    simp only [processHand, ht 20 (by omega), ht 0 (by omega), ht 4 (by omega),
      ht 5 (by omega), ht 8 (by omega), ht 9 (by omega), ht 12 (by omega),
      ht 13 (by omega), ht 16 (by omega), ht 17 (by omega)]

/-- Witness for C4 at a one-point landmark set and a nonempty tracker
state: one error event, state untouched. -/
theorem c4_invalid_landmark_set_witness :
    handle_frame (some ((1:ℚ)/3, (1:ℚ)/3)) (.image ⟨10, 10, [[⟨1/2, 1/2⟩]]⟩) =
      (some ((1:ℚ)/3, (1:ℚ)/3), [Event.error PyErr.indexError]) :=
  (c4_invalid_landmark_set (some ((1:ℚ)/3, (1:ℚ)/3)) [⟨1/2, 1/2⟩] 10 10).1 (by decide)

/-- Counterexample to C4 as stated: on a one-point landmark set the handler
does not behave like "no hand" (which would be no events and a `none`
state): the state stays `some (1/3, 1/3)` and an error event is emitted. -/
theorem c4_invalid_landmark_set_cex :
    handle_frame (some ((1:ℚ)/3, (1:ℚ)/3)) (.image ⟨10, 10, [[⟨(1:ℚ)/2, (1:ℚ)/2⟩]]⟩) ≠
      ((none : Option WristPos), ([] : List Event)) := by
  have hshort := processHand_short (some ((1:ℚ)/3, (1:ℚ)/3)) [⟨(1:ℚ)/2, (1:ℚ)/2⟩] 10 10
    (by decide)
  simp only [handle_frame, detect_gesture_cons, detectLoop, hshort]
  intro hcontra
  exact Option.noConfusion (congrArg Prod.fst hcontra)

/-- C5 (amended): `start_tracking` and `stop_tracking` always emit exactly
one `response` acknowledgement and leave the tracker state unchanged (the
handlers do not reset it to `none`); both are idempotent. -/
theorem c5_lifecycle_requests (prev : Option WristPos) :
    handle_start_tracking prev = (prev, [Event.response RespMsg.handTrackingStarted]) ∧
    handle_stop_tracking prev = (prev, [Event.response RespMsg.handTrackingStopped]) ∧
    handle_start_tracking (handle_start_tracking prev).1 = handle_start_tracking prev ∧
    handle_stop_tracking (handle_stop_tracking prev).1 = handle_stop_tracking prev :=
  ⟨rfl, rfl, rfl, rfl⟩

/-- Counterexample to C5 as stated: after `start_tracking` (and after
`stop_tracking`) on the state `some (1/2, 1/3)`, the tracker state is still
`some (1/2, 1/3)`, not the `none` the claim requires. -/
theorem c5_lifecycle_requests_cex :
    (handle_start_tracking (some ((1:ℚ)/2, (1:ℚ)/3))).1 = some ((1:ℚ)/2, (1:ℚ)/3) ∧
    (handle_stop_tracking (some ((1:ℚ)/2, (1:ℚ)/3))).1 = some ((1:ℚ)/2, (1:ℚ)/3) ∧
    some ((1:ℚ)/2, (1:ℚ)/3) ≠ (none : Option WristPos) :=
  ⟨rfl, rfl, fun hcontra => Option.noConfusion hcontra⟩

/-- C6: a frame event whose base64 decode raises produces exactly one
`error` event — no `gesture_command`, no `hand_data` — and leaves the
tracker state untouched, for every entering state and every raised error. -/
theorem c6_malformed_frame (prev : Option WristPos) (e : PyErr) :
    handle_frame prev (.malformed e) = (prev, [Event.error e]) := rfl

/-- C7 (amended): the geometry extractor converts the wrist position with
Python `int()`, i.e. truncation toward zero — which on the nonnegative
normalized inputs is the floor of `wrist.x*w` and `wrist.y*h`, not rounding
to nearest — and `handScalePixels` is the floor (again not the rounding) of
`handScale * max(w, h)`, characterized without square roots by
`n^2 ≤ handScaleSq * max(w,h)^2 < (n+1)^2`. -/
theorem c7_geometry_extractor (wrist index_mcp index_tip middle_mcp : Pt) (w h : ℕ)
    (hx : 0 ≤ wrist.x) (hy : 0 ≤ wrist.y) :
    (((mkGeometry wrist index_mcp index_tip middle_mcp w h).wristPixelX : ℚ) ≤
        wrist.x * w ∧
      wrist.x * w < (mkGeometry wrist index_mcp index_tip middle_mcp w h).wristPixelX + 1) ∧
    (((mkGeometry wrist index_mcp index_tip middle_mcp w h).wristPixelY : ℚ) ≤
        wrist.y * h ∧
      wrist.y * h < (mkGeometry wrist index_mcp index_tip middle_mcp w h).wristPixelY + 1) ∧
    (((mkGeometry wrist index_mcp index_tip middle_mcp w h).handScalePixels : ℚ) ^ 2 ≤
        sqDist wrist middle_mcp * ((max w h : ℕ) : ℚ) ^ 2 ∧
      sqDist wrist middle_mcp * ((max w h : ℕ) : ℚ) ^ 2 <
        ((mkGeometry wrist index_mcp index_tip middle_mcp w h).handScalePixels + 1) ^ 2) := by
  have hsq : (0:ℚ) ≤ sqDist wrist middle_mcp := by unfold sqDist; positivity
  have hb := isqrtQ_bounds (sqDist wrist middle_mcp) (max w h) hsq
  refine ⟨⟨?_, ?_⟩, ⟨?_, ?_⟩, ?_, ?_⟩
  · show ((pyInt (wrist.x * w) : ℤ) : ℚ) ≤ wrist.x * w
    rw [pyInt_eq_floor _ (by positivity)]
    exact Int.floor_le _
  · show wrist.x * (w : ℚ) < ((pyInt (wrist.x * w) : ℤ) : ℚ) + 1
    rw [pyInt_eq_floor _ (by positivity)]
    exact Int.lt_floor_add_one _
  · show ((pyInt (wrist.y * h) : ℤ) : ℚ) ≤ wrist.y * h
    rw [pyInt_eq_floor _ (by positivity)]
    exact Int.floor_le _
  · show wrist.y * (h : ℚ) < ((pyInt (wrist.y * h) : ℤ) : ℚ) + 1
    rw [pyInt_eq_floor _ (by positivity)]
    exact Int.lt_floor_add_one _
  · exact hb.1
  · exact hb.2

/-- Witness for C7: the truncation bounds at a concrete snapshot. -/
theorem c7_geometry_extractor_witness :
    ((mkGeometry ⟨2/5, 3/5⟩ ⟨2/5, 3/5⟩ ⟨2/5, 3/5⟩ ⟨1/40, 1/10⟩ 4 1).wristPixelX : ℚ) ≤
        (2:ℚ)/5 * ((4:ℕ) : ℚ) ∧
      (2:ℚ)/5 * ((4:ℕ) : ℚ) <
        (mkGeometry ⟨2/5, 3/5⟩ ⟨2/5, 3/5⟩ ⟨2/5, 3/5⟩ ⟨1/40, 1/10⟩ 4 1).wristPixelX + 1 :=
  (c7_geometry_extractor ⟨2/5, 3/5⟩ ⟨2/5, 3/5⟩ ⟨2/5, 3/5⟩ ⟨1/40, 1/10⟩ 4 1
    (by norm_num) (by norm_num)).1

/-- Counterexample to C7 as stated: at wrist x = 2/5 and width 4 the source
computes pixel 1 (truncation of 8/5) while rounding to the nearest integer
gives 2. -/
theorem c7_geometry_extractor_cex :
    (mkGeometry ⟨2/5, 3/5⟩ ⟨2/5, 3/5⟩ ⟨2/5, 3/5⟩ ⟨1/40, 1/10⟩ 4 1).wristPixelX = 1 ∧
    round ((2:ℚ)/5 * ((4:ℕ) : ℚ)) = 2 ∧ (1 : ℤ) ≠ 2 := by
  refine ⟨?_, ?_, by decide⟩
  · show pyInt ((2:ℚ)/5 * ((4:ℕ) : ℚ)) = 1
    rw [pyInt_eq_floor _ (by positivity)]
    norm_num
  · rw [round_eq]
    norm_num

/-- C9: a frame event with a missing or empty image field, and one whose
decoded bytes are not a decodable image, are dropped silently: no events of
any kind and the tracker state untouched, whatever that state is. -/
theorem c9_missing_or_undecodable (prev : Option WristPos) :
    handle_frame prev .missing = (prev, []) ∧
    handle_frame prev .undecodable = (prev, []) := ⟨rfl, rfl⟩

/-- C8 (amended): when the provider returns several hand sets, the loop
processes all of them in order; it is the last hand set that determines the
emitted overlay payload and the tracker state, each hand's movement delta
being computed against the state left by the hand before it, and the emitted
direction is the last non-`none` classification (a later hand that classifies
`none` keeps the earlier direction). Stated for any prefix that completes
without an exception followed by a final hand. -/
theorem c8_multi_hand (w h : ℕ) (prev p1 : Option WristPos) (hs : List LandmarkSet)
    (lm : LandmarkSet) (d1 : Option Direction) (hd1 : Option HandData)
    (hok : detectLoop w h prev none none hs = (p1, .ok (d1, hd1)))
    (p2 : WristPos) (d2 : Option Direction) (hdata2 : HandData)
    (hlast : processHand p1 lm w h = .ok (p2, d2, hdata2)) :
    detect_gesture prev ⟨w, h, hs ++ [lm]⟩ =
      (some p2, .ok (overwriteDir d2 d1, some hdata2)) := by
  obtain ⟨a, t, hat⟩ : ∃ a t, hs ++ [lm] = a :: t := by
    cases hs with
    | nil => exact ⟨lm, [], rfl⟩
    | cons a t => exact ⟨a, t ++ [lm], rfl⟩
  rw [show detect_gesture prev ⟨w, h, hs ++ [lm]⟩ =
        detectLoop w h prev none none (hs ++ [lm]) from by rw [hat]; rfl]
  rw [detectLoop_append, hok]
  simp only [detectLoop, hlast]

/-- Witness for C8: a two-hand frame whose first hand points up and whose
second hand is a fist; the final state and overlay come from the fist, the
direction survives from the first hand. -/
theorem c8_multi_hand_witness :
    detect_gesture none ⟨10, 10, [handUp] ++ [handFist]⟩ =
      (some ((4:ℚ)/5, (4:ℚ)/5),
        .ok (overwriteDir none (some Direction.up),
          some (mkHandData (some ((1:ℚ)/2, (1:ℚ)/2)) ⟨4/5, 4/5⟩ ⟨4/5, 4/5⟩ ⟨4/5, 4/5⟩
            ⟨4/5, 4/5⟩ ⟨4/5, 4/5⟩ ⟨4/5, 4/5⟩ ⟨4/5, 4/5⟩ ⟨4/5, 4/5⟩ ⟨4/5, 4/5⟩ ⟨4/5, 4/5⟩
            10 10))) :=
  c8_multi_hand 10 10 none (some ((1:ℚ)/2, (1:ℚ)/2)) [handUp] handFist
    (some Direction.up)
    (some (mkHandData none ⟨1/2, 1/2⟩ ⟨1/2, 1/2⟩ ⟨1/2, 1/2⟩ ⟨1/2, 0⟩ ⟨1/2, 1/2⟩
      ⟨1/2, 1/2⟩ ⟨1/2, 1/2⟩ ⟨1/2, 1/2⟩ ⟨1/2, 1/2⟩ ⟨1/2, 1/2⟩ 10 10))
    detectLoop_handUp ((4:ℚ)/5, (4:ℚ)/5) none _ processHand_handFist

/-- Counterexample to C8 as stated: on the two-hand frame [handUp, handFist]
the tracker state after the call is the second hand's wrist (4/5, 4/5), while
processing only the first hand leaves (1/2, 1/2) — so the hands after the
first do affect the outputs and the state. -/
theorem c8_multi_hand_cex :
    (detect_gesture none ⟨10, 10, [handUp, handFist]⟩).1 = some ((4:ℚ)/5, (4:ℚ)/5) ∧
    (detect_gesture none ⟨10, 10, [handUp]⟩).1 = some ((1:ℚ)/2, (1:ℚ)/2) ∧
    (some ((4:ℚ)/5, (4:ℚ)/5) : Option WristPos) ≠ some ((1:ℚ)/2, (1:ℚ)/2) := by
  refine ⟨?_, ?_, ?_⟩
  · rw [show detect_gesture none ⟨10, 10, [handUp, handFist]⟩ =
          detectLoop 10 10 none none none ([handUp] ++ [handFist]) from rfl]
    rw [detectLoop_append, detectLoop_handUp]
    simp only [detectLoop, processHand_handFist]
  · rw [show detect_gesture none ⟨10, 10, [handUp]⟩ =
          detectLoop 10 10 none none none [handUp] from rfl, detectLoop_handUp]
  · intro hcontra
    have h1 : ((4:ℚ)/5, (4:ℚ)/5) = ((1:ℚ)/2, (1:ℚ)/2) := Option.some.inj hcontra
    have h2 : (4:ℚ)/5 = 1/2 := congrArg Prod.fst h1
    norm_num at h2

/-- C10: in every successfully built overlay payload the wrist coordinates
and all ten joint coordinates are `int()`-converted pixel values, the
movement deltas are differences of normalized wrist coordinates (zero on the
first frame), and the joints list has exactly ten entries in the fixed order
wrist, thumb tip, index tip, middle tip, ring tip, pinky tip, then the four
MCP joints. -/
theorem c10_overlay_payload (prev : Option WristPos) (lm : LandmarkSet) (w h : ℕ)
    (wrist thumb_tip index_mcp index_tip middle_mcp middle_tip
      ring_mcp ring_tip pinky_mcp pinky_tip : Pt)
    (h0 : lm[0]? = some wrist) (h4 : lm[4]? = some thumb_tip)
    (h5 : lm[5]? = some index_mcp) (h8 : lm[8]? = some index_tip)
    (h9 : lm[9]? = some middle_mcp) (h12 : lm[12]? = some middle_tip)
    (h13 : lm[13]? = some ring_mcp) (h16 : lm[16]? = some ring_tip)
    (h17 : lm[17]? = some pinky_mcp) (h20 : lm[20]? = some pinky_tip) :
    ∃ d hd, processHand prev lm w h = .ok ((wrist.x, wrist.y), d, hd) ∧
      hd.joints = [mkJoint wrist w h .wrist, mkJoint thumb_tip w h .thumb_tip,
        mkJoint index_tip w h .index_tip, mkJoint middle_tip w h .middle_tip,
        mkJoint ring_tip w h .ring_tip, mkJoint pinky_tip w h .pinky_tip,
        mkJoint index_mcp w h .mcp, mkJoint middle_mcp w h .mcp,
        mkJoint ring_mcp w h .mcp, mkJoint pinky_mcp w h .mcp] ∧
      hd.joints.length = 10 ∧
      hd.joints.map Joint.type = [JointType.wrist, JointType.thumb_tip,
        JointType.index_tip, JointType.middle_tip, JointType.ring_tip,
        JointType.pinky_tip, JointType.mcp, JointType.mcp, JointType.mcp,
        JointType.mcp] ∧
      hd.wrist_x = pyInt (wrist.x * w) ∧ hd.wrist_y = pyInt (wrist.y * h) ∧
      (prev = none → hd.movement_dx = 0 ∧ hd.movement_dy = 0) ∧
      (∀ q, prev = some q →
        hd.movement_dx = wrist.x - q.1 ∧ hd.movement_dy = wrist.y - q.2) := by
  have hph := processHand_eq prev lm w h wrist thumb_tip index_mcp index_tip middle_mcp
    middle_tip ring_mcp ring_tip pinky_mcp pinky_tip h0 h4 h5 h8 h9 h12 h13 h16 h17 h20
  refine ⟨_, _, hph, rfl, rfl, rfl, rfl, rfl, ?_, ?_⟩
  · intro hp; subst hp; exact ⟨rfl, rfl⟩
  · intro q hq; subst hq; exact ⟨rfl, rfl⟩

/-- Witness for C10 at a concrete landmark set. -/
theorem c10_overlay_payload_witness :
    ∃ d hd, processHand none exLm 10 10 = .ok (((1:ℚ)/2, (1:ℚ)/2), d, hd) ∧
      hd.joints = [mkJoint ⟨1/2, 1/2⟩ 10 10 .wrist, mkJoint ⟨1/2, 1/2⟩ 10 10 .thumb_tip,
        mkJoint ⟨1/2, 1/4⟩ 10 10 .index_tip, mkJoint ⟨1/2, 1/2⟩ 10 10 .middle_tip,
        mkJoint ⟨1/2, 1/2⟩ 10 10 .ring_tip, mkJoint ⟨1/2, 1/2⟩ 10 10 .pinky_tip,
        mkJoint ⟨1/2, 1/2⟩ 10 10 .mcp, mkJoint ⟨1/2, 1/2⟩ 10 10 .mcp,
        mkJoint ⟨1/2, 1/2⟩ 10 10 .mcp, mkJoint ⟨1/2, 1/2⟩ 10 10 .mcp] ∧
      hd.joints.length = 10 ∧
      hd.joints.map Joint.type = [JointType.wrist, JointType.thumb_tip,
        JointType.index_tip, JointType.middle_tip, JointType.ring_tip,
        JointType.pinky_tip, JointType.mcp, JointType.mcp, JointType.mcp,
        JointType.mcp] ∧
      hd.wrist_x = pyInt ((1:ℚ)/2 * ((10:ℕ) : ℚ)) ∧
      hd.wrist_y = pyInt ((1:ℚ)/2 * ((10:ℕ) : ℚ)) ∧
      ((none : Option WristPos) = none → hd.movement_dx = 0 ∧ hd.movement_dy = 0) ∧
      (∀ q, (none : Option WristPos) = some q →
        hd.movement_dx = (1:ℚ)/2 - q.1 ∧ hd.movement_dy = (1:ℚ)/2 - q.2) :=
  c10_overlay_payload none exLm 10 10 ⟨1/2, 1/2⟩ ⟨1/2, 1/2⟩ ⟨1/2, 1/2⟩ ⟨1/2, 1/4⟩
    ⟨1/2, 1/2⟩ ⟨1/2, 1/2⟩ ⟨1/2, 1/2⟩ ⟨1/2, 1/2⟩ ⟨1/2, 1/2⟩ ⟨1/2, 1/2⟩
    rfl rfl rfl rfl rfl rfl rfl rfl rfl rfl
